import Mathlib

/-!
Shallow embedding of the gameplay-simulation core of the bird-flock arcade
game: the session store (src/store.ts), the obstacle manager's collision
test and the app-level reset wiring (src/components/GameScene.tsx, App).

Numeric conventions: scores, timers and timestamps (JS numbers used only
with +, -, max and comparisons) are embedded as rationals; bird counts as
integers; obstacle geometry (which uses cos/sin) as reals.
-/

namespace BirdGame

/-- `GameStatus` enum from src/types.ts. -/
inductive GameStatus where
  | MENU
  | PLAYING
  | GAME_OVER
  | GAME_WON
deriving DecidableEq, Repr

/-- `DangerStatus` enum from src/types.ts. -/
inductive DangerStatus where
  | SAFE
  | WARNING
deriving DecidableEq, Repr

/-- `GamePhase` enum from src/types.ts. -/
inductive GamePhase where
  | CORRIDOR
  | HIGH_ALTITUDE
deriving DecidableEq, Repr

/-- The session-state fields of the zustand store in src/store.ts. -/
structure GameState where
  status : GameStatus
  dangerStatus : DangerStatus
  phase : GamePhase
  score : ℚ
  birdCount : ℤ
  birdX : ℚ
  birdY : ℚ
  cameraPermissionGranted : Bool
  handDetected : Bool
  isFist : Bool
  lastHitTime : ℚ
  dangerTimer : ℚ
deriving DecidableEq, Repr

/-- The initial store value passed to `create` in src/store.ts. -/
def initialState : GameState :=
  { status := GameStatus.MENU
    dangerStatus := DangerStatus.SAFE
    phase := GamePhase.CORRIDOR
    score := 0
    birdCount := 16
    birdX := 0
    birdY := 0
    cameraPermissionGranted := false
    handDetected := false
    isFist := false
    lastHitTime := 0
    dangerTimer := 0 }

/-- `incrementScore` from src/store.ts: adds `amount` to the score, moves the
phase from CORRIDOR to HIGH_ALTITUDE once the new score exceeds 300, and sets
the status to GAME_WON once the new score reaches 800. -/
def incrementScore (s : GameState) (amount : ℚ) : GameState :=
  let newScore := s.score + amount
  let newPhase :=
    if newScore > 300 ∧ s.phase = GamePhase.CORRIDOR then GamePhase.HIGH_ALTITUDE
    else s.phase
  let newStatus :=
    if newScore ≥ 800 ∧ s.status ≠ GameStatus.GAME_WON then GameStatus.GAME_WON
    else s.status
  { s with score := newScore, phase := newPhase, status := newStatus }

/-- `triggerDanger` from src/store.ts; the call to `Date.now()` is embedded as
the explicit parameter `now`. -/
def triggerDanger (s : GameState) (now : ℚ) : GameState :=
  if s.dangerStatus = DangerStatus.WARNING ∨ now - s.lastHitTime < 2000 then s
  else
    { s with dangerStatus := DangerStatus.WARNING
             dangerTimer := 3000
             lastHitTime := now }

/-- `resolveDanger` from src/store.ts; `Date.now()` is the parameter `now`. -/
def resolveDanger (s : GameState) (success : Bool) (now : ℚ) : GameState :=
  if s.dangerStatus ≠ DangerStatus.WARNING then s
  else
    let newCount := if success then s.birdCount else max 0 (s.birdCount - 1)
    let newStatus := if newCount ≤ 0 then GameStatus.GAME_OVER else s.status
    { s with birdCount := newCount
             status := newStatus
             dangerStatus := DangerStatus.SAFE
             lastHitTime := now }

/-- `tickDangerTimer` from src/store.ts; `Date.now()` is the parameter `now`. -/
def tickDangerTimer (s : GameState) (deltaMs : ℚ) (now : ℚ) : GameState :=
  if s.dangerStatus ≠ DangerStatus.WARNING then s
  else
    let newTime := s.dangerTimer - deltaMs
    if newTime ≤ 0 then
      let newCount := max 0 (s.birdCount - 1)
      { s with dangerTimer := 0
               dangerStatus := DangerStatus.SAFE
               birdCount := newCount
               status := if newCount ≤ 0 then GameStatus.GAME_OVER else s.status
               lastHitTime := now }
    else { s with dangerTimer := newTime }

/-- `resetGame` from src/store.ts. -/
def resetGame (s : GameState) : GameState :=
  { s with status := GameStatus.PLAYING
           dangerStatus := DangerStatus.SAFE
           phase := GamePhase.CORRIDOR
           score := 0
           birdCount := 16
           birdX := 0
           birdY := 0
           lastHitTime := 0
           dangerTimer := 0 }

/-- The `'beam' | 'pillar'` tag of the `Laser` interface in
src/components/GameScene.tsx. -/
inductive LaserType where
  | beam
  | pillar
deriving DecidableEq, Repr

/-- The `Laser` record of src/components/GameScene.tsx (the `id` field,
irrelevant to the claims, is omitted): a light-beam obstacle with origin
`(x, y)`, segment length `width`, orientation `(side, angle)`, current depth
`z` and kind `type`. -/
structure Laser where
  z : ℝ
  x : ℝ
  y : ℝ
  width : ℝ
  side : ℤ
  angle : ℝ
  type : LaserType

/-- The kind-dependent effective radius used by the collision threshold in
src/components/GameScene.tsx: `laser.type === 'pillar' ? 5.0 : 0.8`. -/
def visualRadius (t : LaserType) : ℝ :=
  if t = LaserType.pillar then 5.0 else 0.8

/-- The per-laser collision check of the `useFrame` body of `ObstacleManager`
(src/components/GameScene.tsx): the laser is tested only when its updated
depth `newZ` is within 3.0 of the flock plane `z = 0`; the direction is built
from `(side, angle)`, the flock position `(bx, bY)` is projected onto the
laser's line, the closest point is taken by the two branch tests `t < 0` /
`t > width`, and a hit is the squared distance falling strictly below
`(visualRadius + flockRadius)^2`. -/
def laserHit (l : Laser) (newZ bx bY flockRadius : ℝ) : Prop :=
  |newZ - 0| < 3.0 ∧
  (let dirBaseX : ℝ := if l.side = 1 then -1 else 1
   let dirBaseY : ℝ := 0
   let cosA := Real.cos l.angle
   let sinA := Real.sin l.angle
   let dirX := dirBaseX * cosA - dirBaseY * sinA
   let dirY := dirBaseX * sinA + dirBaseY * cosA
   let dx := bx - l.x
   let dy := bY - l.y
   let t := dx * dirX + dy * dirY
   let closestX := if t < 0 then l.x
     else if t > l.width then l.x + l.width * dirX else l.x + t * dirX
   let closestY := if t < 0 then l.y
     else if t > l.width then l.y + l.width * dirY else l.y + t * dirY
   let distSq := (bx - closestX) ^ 2 + (bY - closestY) ^ 2
   let threshold := visualRadius l.type + flockRadius
   distSq < threshold * threshold)

/-- `IsDir l d` holds when `d` is the obstacle direction as the spec words
it: the base vector `(-1, 0)` if `side = 1` else `(1, 0)`, rotated by
`angle` radians. -/
def IsDir (l : Laser) (d : ℝ × ℝ) : Prop :=
  let base : ℝ × ℝ := if l.side = 1 then (-1, 0) else (1, 0)
  d = (base.1 * Real.cos l.angle - base.2 * Real.sin l.angle,
       base.1 * Real.sin l.angle + base.2 * Real.cos l.angle)

/-- The collision predicate as the spec words it: with `d` the direction of
`IsDir`, project the flock position onto the obstacle's line to get `t`,
clamp `t` to `[0, length]` for the closest segment point, and compare the
squared distance to that point with
`(obstacleVisualRadius + flockCollisionRadius)^2`. -/
def specHit (l : Laser) (bx bY flockRadius : ℝ) : Prop :=
  ∃ d : ℝ × ℝ, IsDir l d ∧
    (let t := (bx - l.x) * d.1 + (bY - l.y) * d.2
     let tc := max 0 (min t l.width)
     let cx := l.x + tc * d.1
     let cy := l.y + tc * d.2
     (bx - cx) ^ 2 + (bY - cy) ^ 2 < (visualRadius l.type + flockRadius) ^ 2)

/-- The whole in-memory game state of the running app: the zustand session
store plus the `lasers` React state held by `ObstacleManager`
(src/components/GameScene.tsx), which lives outside the store. -/
structure FullState where
  session : GameState
  lasers : List Laser

/-- The reset action as wired in the app (src/unnamed/part_000): the restart
buttons call only the store's `resetGame`; `ObstacleManager` stays mounted,
so its `lasers` state is untouched. -/
def fullReset (fs : FullState) : FullState :=
  { fs with session := resetGame fs.session }

/-- One store action of the simulation core: a score increment, a danger
trigger, a manual resolve, or a danger-timer tick (timestamps explicit). -/
inductive Op where
  | score (amount : ℚ)
  | trigger (now : ℚ)
  | resolve (success : Bool) (now : ℚ)
  | tick (deltaMs : ℚ) (now : ℚ)
deriving DecidableEq, Repr

/-- Apply one store action to a session state. -/
def applyOp (s : GameState) : Op → GameState
  | Op.score a => incrementScore s a
  | Op.trigger n => triggerDanger s n
  | Op.resolve b n => resolveDanger s b n
  | Op.tick d n => tickDangerTimer s d n

/-- Run a sequence of store actions. -/
def runOps (s : GameState) (ops : List Op) : GameState :=
  ops.foldl applyOp s

/-- A score action is an increment: its delta is non-negative (the game only
ever calls `incrementScore(10)`); other actions are unrestricted. -/
def opOk : Op → Prop
  | Op.score a => 0 ≤ a
  | _ => True

/-- The state invariant of the session store: a HIGH_ALTITUDE phase means
the score has exceeded 300, a GAME_WON status means the score reached 800,
a GAME_OVER status means the flock is empty, and the bird count stays in
`[0, 16]`. -/
def Inv (s : GameState) : Prop :=
  (s.phase = GamePhase.HIGH_ALTITUDE → 300 < s.score) ∧
  (s.status = GameStatus.GAME_WON → 800 ≤ s.score) ∧
  (s.status = GameStatus.GAME_OVER → s.birdCount = 0) ∧
  0 ≤ s.birdCount ∧ s.birdCount ≤ 16

/-- Run a sequence of bare score increments (`incrementScore` only). -/
def applyScores (s : GameState) (ds : List ℚ) : GameState :=
  ds.foldl incrementScore s

/-- A state in the middle of a danger window: WARNING with the freshly set
3000 ms timer. -/
def warningState : GameState :=
  { resetGame initialState with
      dangerStatus := DangerStatus.WARNING
      dangerTimer := 3000
      lastHitTime := 2000 }

/-- A danger window with a single bird left: the next failed rescue empties
the flock. -/
def lastBirdState : GameState :=
  { resetGame initialState with
      dangerStatus := DangerStatus.WARNING
      birdCount := 1
      dangerTimer := 1500
      lastHitTime := 3000 }

/-- The state after the last bird is lost to a failed manual rescue at
time 5000: bird count 0, status GAME_OVER, danger status SAFE. -/
def gameOverState : GameState :=
  resolveDanger lastBirdState false 5000

/-- A concrete beam obstacle of the shape `ObstacleManager` spawns, used as
a live obstacle in counterexamples. -/
def laserEx : Laser :=
  { z := -200, x := 0, y := 0, width := 40, side := 1,
    angle := 0, type := LaserType.beam }

/-- The beam of the spec's collision scenario: origin `(0,0)`, direction
`(1,0)` (i.e. `side = -1`, `angle = 0`), length 10, within the test band. -/
def beamEx : Laser :=
  { z := 0, x := 0, y := 0, width := 10, side := -1,
    angle := 0, type := LaserType.beam }

/-! ### Properties of the session store -/

/-- C2: for every state and delta, `incrementScore` adds the delta to the
score, moves the phase to HIGH_ALTITUDE exactly when the previous phase was
CORRIDOR and the new score exceeds 300, sets the status to GAME_WON exactly
when the new score reaches 800 and the status was not already GAME_WON, and
changes no other field; being a total function it never fails. -/
theorem incrementScore_exact (s : GameState) (delta : ℚ) :
    (incrementScore s delta).score = s.score + delta ∧
    (incrementScore s delta).phase =
      (if s.phase = GamePhase.CORRIDOR ∧ 300 < s.score + delta
       then GamePhase.HIGH_ALTITUDE else s.phase) ∧
    (incrementScore s delta).status =
      (if 800 ≤ s.score + delta ∧ s.status ≠ GameStatus.GAME_WON
       then GameStatus.GAME_WON else s.status) ∧
    (incrementScore s delta).dangerStatus = s.dangerStatus ∧
    (incrementScore s delta).birdCount = s.birdCount ∧
    (incrementScore s delta).birdX = s.birdX ∧
    (incrementScore s delta).birdY = s.birdY ∧
    (incrementScore s delta).cameraPermissionGranted = s.cameraPermissionGranted ∧
    (incrementScore s delta).handDetected = s.handDetected ∧
    (incrementScore s delta).isFist = s.isFist ∧
    (incrementScore s delta).lastHitTime = s.lastHitTime ∧
    (incrementScore s delta).dangerTimer = s.dangerTimer := by
  refine ⟨rfl, ?_, rfl, rfl, rfl, rfl, rfl, rfl, rfl, rfl, rfl, rfl⟩
  show (if 300 < s.score + delta ∧ s.phase = GamePhase.CORRIDOR
        then GamePhase.HIGH_ALTITUDE else s.phase) = _
  by_cases h : 300 < s.score + delta ∧ s.phase = GamePhase.CORRIDOR
  · rw [if_pos h, if_pos ⟨h.2, h.1⟩]
  · rw [if_neg h, if_neg fun hc => h ⟨hc.2, hc.1⟩]

/-- C3: `triggerDanger` returns the state unchanged when the danger status
is already WARNING or the 2000 ms cooldown since `lastHitTime` has not
elapsed; otherwise it sets WARNING, a 3000 ms timer and `lastHitTime = now`,
changing nothing else; a second trigger within 2000 ms of a successful first
trigger is a no-op. -/
theorem triggerDanger_exact (s : GameState) (now now2 : ℚ) :
    (s.dangerStatus = DangerStatus.WARNING ∨ now - s.lastHitTime < 2000 →
      triggerDanger s now = s) ∧
    (¬(s.dangerStatus = DangerStatus.WARNING ∨ now - s.lastHitTime < 2000) →
      triggerDanger s now =
        { s with dangerStatus := DangerStatus.WARNING
                 dangerTimer := 3000
                 lastHitTime := now }) ∧
    (¬(s.dangerStatus = DangerStatus.WARNING ∨ now - s.lastHitTime < 2000) →
      now2 - now < 2000 →
      triggerDanger (triggerDanger s now) now2 = triggerDanger s now) := by
  refine ⟨fun h => by simp only [triggerDanger, if_pos h],
          fun h => by simp only [triggerDanger, if_neg h],
          fun h _ => ?_⟩
  simp only [triggerDanger, if_neg h]
  exact if_pos (Or.inl trivial)

/-- C3 witness: a fresh game triggers at time 2500, a WARNING state does
not, and a second trigger 100 ms after the successful one is a no-op. -/
theorem triggerDanger_exact_witness :
    triggerDanger (resetGame initialState) 2500 =
      { resetGame initialState with
          dangerStatus := DangerStatus.WARNING
          dangerTimer := 3000
          lastHitTime := 2500 } ∧
    triggerDanger warningState 2600 = warningState ∧
    triggerDanger (triggerDanger (resetGame initialState) 2500) 2600 =
      triggerDanger (resetGame initialState) 2500 := by
  have hno : ¬((resetGame initialState).dangerStatus = DangerStatus.WARNING ∨
      (2500 : ℚ) - (resetGame initialState).lastHitTime < 2000) := by
    rintro (he | hlt)
    · exact DangerStatus.noConfusion he
    · norm_num [resetGame, initialState] at hlt
  exact ⟨(triggerDanger_exact (resetGame initialState) 2500 2600).2.1 hno,
         (triggerDanger_exact warningState 2600 0).1 (Or.inl rfl),
         (triggerDanger_exact (resetGame initialState) 2500 2600).2.2 hno
           (by norm_num)⟩

/-- C4: `resolveDanger` is a no-op when the danger status is not WARNING;
in a WARNING state it decrements the bird count (floored at 0) exactly on
failure, sets the danger status to SAFE and `lastHitTime = now`, sets the
status to GAME_OVER exactly when the new bird count is ≤ 0 and leaves it
unchanged otherwise, and changes no other field. -/
theorem resolveDanger_exact (s : GameState) (success : Bool) (now : ℚ) :
    (s.dangerStatus ≠ DangerStatus.WARNING → resolveDanger s success now = s) ∧
    (s.dangerStatus = DangerStatus.WARNING →
      resolveDanger s success now =
        { s with
            birdCount := if success then s.birdCount else max 0 (s.birdCount - 1)
            status :=
              if (if success then s.birdCount else max 0 (s.birdCount - 1)) ≤ 0
              then GameStatus.GAME_OVER else s.status
            dangerStatus := DangerStatus.SAFE
            lastHitTime := now }) := by
  exact ⟨fun h => by simp [resolveDanger, h], fun h => by simp [resolveDanger, h]⟩

/-- C4 witness: a resolve outside a danger window (fresh SAFE state) is a
no-op, and a failed resolve in a WARNING state takes the specified form. -/
theorem resolveDanger_exact_witness :
    resolveDanger initialState true 100 = initialState ∧
    resolveDanger warningState false 4000 =
      { warningState with
          birdCount := if false then warningState.birdCount
                       else max 0 (warningState.birdCount - 1)
          status := if (if false then warningState.birdCount
                        else max 0 (warningState.birdCount - 1)) ≤ 0
                    then GameStatus.GAME_OVER else warningState.status
          dangerStatus := DangerStatus.SAFE
          lastHitTime := 4000 } :=
  ⟨(resolveDanger_exact initialState true 100).1 fun h => DangerStatus.noConfusion h,
   (resolveDanger_exact warningState false 4000).2 rfl⟩

/-- C5: in a WARNING state, a tick that exhausts the danger timer produces
exactly the state of `resolveDanger` with `success = false` except that the
timer is additionally forced to 0 — the bird count drops by 1 (floored at 0),
the danger status becomes SAFE, the timer becomes 0, and the status is set
to GAME_OVER exactly when the new bird count is 0 and left unchanged
otherwise; a tick that does not exhaust the timer only decrements the
timer. -/
theorem tick_expiry_refines_resolve (s : GameState) (δ now : ℚ)
    (hW : s.dangerStatus = DangerStatus.WARNING) :
    (s.dangerTimer - δ ≤ 0 →
      tickDangerTimer s δ now = { resolveDanger s false now with dangerTimer := 0 } ∧
      (tickDangerTimer s δ now).birdCount = max 0 (s.birdCount - 1) ∧
      (tickDangerTimer s δ now).dangerStatus = DangerStatus.SAFE ∧
      (tickDangerTimer s δ now).dangerTimer = 0 ∧
      (max 0 (s.birdCount - 1) = 0 →
        (tickDangerTimer s δ now).status = GameStatus.GAME_OVER) ∧
      (max 0 (s.birdCount - 1) ≠ 0 →
        (tickDangerTimer s δ now).status = s.status)) ∧
    (0 < s.dangerTimer - δ →
      tickDangerTimer s δ now = { s with dangerTimer := s.dangerTimer - δ }) := by
  constructor
  · intro h
    refine ⟨by simp [tickDangerTimer, resolveDanger, hW, h], ?_, ?_, ?_, ?_, ?_⟩
    · simp [tickDangerTimer, hW, h]
    · simp [tickDangerTimer, hW, h]
    · simp [tickDangerTimer, hW, h]
    · intro h0
      simp [tickDangerTimer, hW, h, h0]
    · intro h0
      have hnle : ¬ max 0 (s.birdCount - 1) ≤ 0 :=
        fun hle => h0 (le_antisymm hle (le_max_left 0 _))
      simp [tickDangerTimer, hW, h, hnle]
  · intro h
    simp [tickDangerTimer, hW, not_le.mpr h]

/-- C5 witness: from a fresh WARNING state, a 3000 ms tick equals a failed
resolve with the timer forced to 0. -/
theorem tick_expiry_refines_resolve_witness :
    tickDangerTimer warningState 3000 9000 =
      { resolveDanger warningState false 9000 with dangerTimer := 0 } :=
  ((tick_expiry_refines_resolve warningState 3000 9000 rfl).1
    (by norm_num [warningState])).1

/-- C6 counterexample: the app-level reset (the restart buttons call only the
store's `resetGame`; `ObstacleManager` stays mounted) does not clear the live
obstacle list — resetting a full state holding one live beam leaves the
obstacle set non-empty. -/
theorem fullReset_keeps_lasers_counterexample :
    (fullReset { session := initialState, lasers := [laserEx] }).lasers ≠ [] := by
  simp [fullReset]

/-- C6 amended: for every prior state, reset yields status PLAYING, phase
CORRIDOR, score 0, bird count 16, danger status SAFE and danger timer 0, but
leaves the live obstacle list exactly as it was rather than clearing it. -/
theorem fullReset_exact (fs : FullState) :
    (fullReset fs).session.status = GameStatus.PLAYING ∧
    (fullReset fs).session.phase = GamePhase.CORRIDOR ∧
    (fullReset fs).session.score = 0 ∧
    (fullReset fs).session.birdCount = 16 ∧
    (fullReset fs).session.dangerStatus = DangerStatus.SAFE ∧
    (fullReset fs).session.dangerTimer = 0 ∧
    (fullReset fs).lasers = fs.lasers :=
  ⟨rfl, rfl, rfl, rfl, rfl, rfl, rfl⟩

/-- C10: `resolveDanger` never modifies the danger timer in either branch;
after a failed manual rescue from a fresh WARNING state the danger status is
SAFE while the timer retains the stale positive value 3000; a tick that
exhausts the timer sets it to 0, and reset sets it to 0. -/
theorem resolveDanger_timer_frame (s : GameState) (success : Bool)
    (now δ now2 : ℚ) :
    (resolveDanger s success now).dangerTimer = s.dangerTimer ∧
    ((resolveDanger warningState false now).dangerStatus = DangerStatus.SAFE ∧
      (resolveDanger warningState false now).dangerTimer = 3000 ∧
      (0 : ℚ) < (resolveDanger warningState false now).dangerTimer) ∧
    (s.dangerStatus = DangerStatus.WARNING → s.dangerTimer - δ ≤ 0 →
      (tickDangerTimer s δ now2).dangerTimer = 0) ∧
    (resetGame s).dangerTimer = 0 := by
  refine ⟨?_, ⟨rfl, rfl, by norm_num [resolveDanger, warningState]⟩,
          fun h1 h2 => by simp [tickDangerTimer, h1, h2], rfl⟩
  unfold resolveDanger
  split <;> rfl

/-- C10 witness: instantiated at the fresh WARNING state with a
timer-exhausting tick. -/
theorem resolveDanger_timer_frame_witness :
    (resolveDanger warningState true 5000).dangerTimer = warningState.dangerTimer ∧
    (tickDangerTimer warningState 3500 9000).dangerTimer = 0 :=
  ⟨(resolveDanger_timer_frame warningState true 5000 3500 9000).1,
   (resolveDanger_timer_frame warningState true 5000 3500 9000).2.2.1
     rfl (by norm_num [warningState])⟩

/-- C7 counterexample: after the last bird is lost to a failed manual rescue
(bird count 0, status GAME_OVER, danger status SAFE, `lastHitTime = 5000`),
a store-level `triggerDanger` at the later timestamp 100000 is past the
2000 ms cooldown and changes the state (it re-enters WARNING), so not every
subsequent trigger call is a no-op. -/
theorem gameOver_trigger_counterexample :
    gameOverState.birdCount = 0 ∧
    gameOverState.status = GameStatus.GAME_OVER ∧
    gameOverState.dangerStatus = DangerStatus.SAFE ∧
    triggerDanger gameOverState 100000 ≠ gameOverState := by
  have hstate : gameOverState.birdCount = 0 ∧
      gameOverState.status = GameStatus.GAME_OVER ∧
      gameOverState.dangerStatus = DangerStatus.SAFE ∧
      gameOverState.lastHitTime = 5000 := by
    norm_num [gameOverState, lastBirdState, resolveDanger]
  refine ⟨hstate.1, hstate.2.1, hstate.2.2.1, fun h => ?_⟩
  have hW : (triggerDanger gameOverState 100000).dangerStatus =
      DangerStatus.WARNING := by
    have hcond : ¬(gameOverState.dangerStatus = DangerStatus.WARNING ∨
        (100000 : ℚ) - gameOverState.lastHitTime < 2000) := by
      rw [hstate.2.2.1, hstate.2.2.2]
      rintro (he | hlt)
      · exact DangerStatus.noConfusion he
      · norm_num at hlt
    simp [triggerDanger, hcond]
  rw [h, hstate.2.2.1] at hW
  exact DangerStatus.noConfusion hW

/-- C7 amended: once the bird count is 0, the status is GAME_OVER and the
danger status is SAFE (as a failed rescue leaves it), every subsequent tick
is a no-op, and a subsequent trigger call is a no-op whenever it falls
within the 2000 ms cooldown of `lastHitTime`; a trigger past the cooldown
would re-enter WARNING at the store level, and in the running game is
prevented only by the frame loop's `status !== PLAYING` guard. -/
theorem gameOver_tick_trigger (s : GameState)
    (hGO : s.status = GameStatus.GAME_OVER) (hbc : s.birdCount = 0)
    (hSafe : s.dangerStatus = DangerStatus.SAFE) :
    (∀ δ now, tickDangerTimer s δ now = s) ∧
    (∀ now, now - s.lastHitTime < 2000 → triggerDanger s now = s) :=
  ⟨fun δ now => by simp [tickDangerTimer, hSafe],
   fun now h => by simp [triggerDanger, hSafe, h]⟩

/-- C7 witness: the amended no-ops instantiated at the concrete game-over
state reached by losing the last bird. -/
theorem gameOver_tick_trigger_witness :
    tickDangerTimer gameOverState 16 70000 = gameOverState ∧
    triggerDanger gameOverState 6000 = gameOverState := by
  have hstate : gameOverState.status = GameStatus.GAME_OVER ∧
      gameOverState.birdCount = 0 ∧
      gameOverState.dangerStatus = DangerStatus.SAFE ∧
      gameOverState.lastHitTime = 5000 := by
    norm_num [gameOverState, lastBirdState, resolveDanger]
  exact ⟨(gameOver_tick_trigger gameOverState hstate.1 hstate.2.1
            hstate.2.2.1).1 16 70000,
         (gameOver_tick_trigger gameOverState hstate.1 hstate.2.1
            hstate.2.2.1).2 6000 (by rw [hstate.2.2.2]; norm_num)⟩

/-- Every store action with a non-negative score delta preserves the session
invariant. -/
lemma inv_applyOp (s : GameState) (op : Op) (hI : Inv s) (hok : opOk op) :
    Inv (applyOp s op) := by
  obtain ⟨hphase, hwon, hover, hbc0, hbc16⟩ := hI
  cases op with
  | score a =>
    simp only [opOk] at hok
    simp only [applyOp, incrementScore, Inv]
    refine ⟨?_, ?_, ?_, hbc0, hbc16⟩
    · by_cases h : 300 < s.score + a ∧ s.phase = GamePhase.CORRIDOR
      · rw [if_pos h]
        intro _
        exact h.1
      · rw [if_neg h]
        intro hp
        have := hphase hp
        linarith
    · by_cases h : 800 ≤ s.score + a ∧ s.status ≠ GameStatus.GAME_WON
      · rw [if_pos h]
        intro _
        exact h.1
      · rw [if_neg h]
        intro hw
        have := hwon hw
        linarith
    · by_cases h : 800 ≤ s.score + a ∧ s.status ≠ GameStatus.GAME_WON
      · rw [if_pos h]
        intro hGO
        exact GameStatus.noConfusion hGO
      · rw [if_neg h]
        exact hover
  | trigger n =>
    simp only [applyOp, triggerDanger]
    split
    · exact ⟨hphase, hwon, hover, hbc0, hbc16⟩
    · exact ⟨hphase, hwon, hover, hbc0, hbc16⟩
  | resolve b n =>
    simp only [applyOp, resolveDanger]
    by_cases hg : s.dangerStatus ≠ DangerStatus.WARNING
    · rw [if_pos hg]
      exact ⟨hphase, hwon, hover, hbc0, hbc16⟩
    · rw [if_neg hg]
      simp only [Inv]
      have hnc0 : 0 ≤ if b then s.birdCount else max 0 (s.birdCount - 1) := by
        cases b <;> simp [hbc0]
      have hnc16 : (if b then s.birdCount else max 0 (s.birdCount - 1)) ≤ 16 := by
        cases b <;> simp <;> omega
      refine ⟨hphase, ?_, ?_, hnc0, hnc16⟩
      · by_cases hle : (if b then s.birdCount else max 0 (s.birdCount - 1)) ≤ 0
        · rw [if_pos hle]
          intro hw
          exact GameStatus.noConfusion hw
        · rw [if_neg hle]
          exact hwon
      · by_cases hle : (if b then s.birdCount else max 0 (s.birdCount - 1)) ≤ 0
        · rw [if_pos hle]
          intro _
          omega
        · rw [if_neg hle]
          intro hGO
          have := hover hGO
          cases b <;> simp_all <;> omega
  | tick d n =>
    simp only [applyOp, tickDangerTimer]
    by_cases hg : s.dangerStatus ≠ DangerStatus.WARNING
    · rw [if_pos hg]
      exact ⟨hphase, hwon, hover, hbc0, hbc16⟩
    · rw [if_neg hg]
      by_cases ht : s.dangerTimer - d ≤ 0
      · rw [if_pos ht]
        simp only [Inv]
        refine ⟨hphase, ?_, ?_, by omega, by omega⟩
        · by_cases hle : max 0 (s.birdCount - 1) ≤ 0
          · rw [if_pos hle]
            intro hw
            exact GameStatus.noConfusion hw
          · rw [if_neg hle]
            exact hwon
        · by_cases hle : max 0 (s.birdCount - 1) ≤ 0
          · rw [if_pos hle]
            intro _
            omega
          · rw [if_neg hle]
            intro hGO
            have := hover hGO
            omega
      · rw [if_neg ht]
        exact ⟨hphase, hwon, hover, hbc0, hbc16⟩

/-- Running any sequence of store actions with non-negative score deltas
preserves the session invariant. -/
lemma inv_runOps (ops : List Op) (s : GameState) (hI : Inv s)
    (hok : ∀ op ∈ ops, opOk op) : Inv (runOps s ops) := by
  induction ops generalizing s with
  | nil => exact hI
  | cons op rest ih =>
    exact ih (applyOp s op) (inv_applyOp s op hI (hok op (by simp)))
      fun o ho => hok o (by simp [ho])

/-- C8: the bird count starts at 16; the invariant — HIGH_ALTITUDE implies
the score exceeded 300, GAME_WON implies score ≥ 800, GAME_OVER implies an
empty flock, and the bird count stays in `[0, 16]` — holds in the initial
state, in every reset state, and is preserved by every sequence of store
actions with non-negative score deltas; moreover no action ever increases
the bird count, and an action that strictly decreases it is exactly a failed
rescue (a failed manual resolve, or a tick that exhausts the timer) landing
in a WARNING state, and decreases it by 1 floored at 0. -/
theorem reachable_invariant :
    initialState.birdCount = 16 ∧
    Inv initialState ∧
    (∀ s : GameState, Inv (resetGame s)) ∧
    (∀ (s0 : GameState) (ops : List Op), Inv s0 → (∀ op ∈ ops, opOk op) →
      Inv (runOps s0 ops)) ∧
    (∀ (s : GameState) (op : Op), 0 ≤ s.birdCount →
      (applyOp s op).birdCount ≤ s.birdCount ∧
      ((applyOp s op).birdCount < s.birdCount →
        s.dangerStatus = DangerStatus.WARNING ∧
        (applyOp s op).birdCount = max 0 (s.birdCount - 1) ∧
        ((∃ n, op = Op.resolve false n) ∨
          (∃ d n, op = Op.tick d n ∧ s.dangerTimer - d ≤ 0)))) := by
  refine ⟨rfl, ?_, ?_, fun s0 ops => inv_runOps ops s0, ?_⟩
  · exact ⟨fun h => GamePhase.noConfusion h, fun h => GameStatus.noConfusion h,
      fun h => GameStatus.noConfusion h, by norm_num [initialState],
      by norm_num [initialState]⟩
  · intro s
    exact ⟨fun h => GamePhase.noConfusion h, fun h => GameStatus.noConfusion h,
      fun h => GameStatus.noConfusion h, by norm_num [resetGame],
      by norm_num [resetGame]⟩
  · intro s op hbc0
    cases op with
    | score a =>
      refine ⟨le_of_eq rfl, fun hlt => absurd hlt (by simp [applyOp, incrementScore])⟩
    | trigger n =>
      constructor
      · simp only [applyOp, triggerDanger]
        split <;> exact le_refl _
      · intro hlt
        refine absurd hlt ?_
        simp only [applyOp, triggerDanger]
        split <;> simp
    | resolve b n =>
      by_cases hg : s.dangerStatus ≠ DangerStatus.WARNING
      · simp only [applyOp, resolveDanger, if_pos hg]
        exact ⟨le_refl _, fun hlt => absurd hlt (lt_irrefl _)⟩
      · simp only [applyOp, resolveDanger, if_neg hg]
        rw [not_not] at hg
        cases b
        · simp only [Bool.false_eq_true, if_false]
          refine ⟨by omega, fun hlt => ⟨hg, trivial, Or.inl ⟨n, rfl⟩⟩⟩
        · simp only [if_true]
          exact ⟨le_refl _, fun hlt => absurd hlt (lt_irrefl _)⟩
    | tick d n =>
      by_cases hg : s.dangerStatus ≠ DangerStatus.WARNING
      · simp only [applyOp, tickDangerTimer, if_pos hg]
        exact ⟨le_refl _, fun hlt => absurd hlt (lt_irrefl _)⟩
      · rw [not_not] at hg
        by_cases ht : s.dangerTimer - d ≤ 0
        · simp only [applyOp, tickDangerTimer, if_neg (not_not.mpr hg), if_pos ht]
          exact ⟨by omega, fun hlt => ⟨hg, trivial, Or.inr ⟨d, n, rfl, ht⟩⟩⟩
        · simp only [applyOp, tickDangerTimer, if_neg (not_not.mpr hg), if_neg ht]
          exact ⟨le_refl _, fun hlt => absurd hlt (lt_irrefl _)⟩

/-- C8 witness: the invariant instantiated at a concrete run (a score
increment past the phase threshold, then a danger window), and the
bird-count bound instantiated at a failed rescue from the last-bird
state. -/
theorem reachable_invariant_witness :
    Inv (runOps initialState [Op.score 310, Op.trigger 2000]) ∧
    (applyOp lastBirdState (Op.resolve false 5000)).birdCount ≤
      lastBirdState.birdCount :=
  ⟨reachable_invariant.2.2.2.1 initialState [Op.score 310, Op.trigger 2000]
      reachable_invariant.2.1
      (by intro op hop
          simp only [List.mem_cons, List.mem_singleton] at hop
          rcases hop with h | h | h
          · rw [h]; norm_num [opOk]
          · rw [h]; trivial
          · exact absurd h (by simp)),
   (reachable_invariant.2.2.2.2 lastBirdState (Op.resolve false 5000)
      (by norm_num [lastBirdState, resetGame, initialState])).1⟩

/-- Running bare score increments adds the list's sum to the score. -/
lemma applyScores_score (ds : List ℚ) : ∀ s : GameState,
    (applyScores s ds).score = s.score + ds.sum := by
  induction ds with
  | nil => intro s; simp [applyScores]
  | cons d rest ih =>
    intro s
    show (applyScores (incrementScore s d) rest).score = _
    rw [ih, List.sum_cons]
    show s.score + d + rest.sum = _
    ring

/-- The HIGH_ALTITUDE phase is preserved by any run of score increments. -/
lemma applyScores_high (ds : List ℚ) : ∀ s : GameState,
    s.phase = GamePhase.HIGH_ALTITUDE →
    (applyScores s ds).phase = GamePhase.HIGH_ALTITUDE := by
  induction ds with
  | nil => intro s h; exact h
  | cons d rest ih =>
    intro s h
    refine ih (incrementScore s d) ?_
    have : ¬(300 < s.score + d ∧ s.phase = GamePhase.CORRIDOR) := by
      rintro ⟨-, hc⟩
      rw [h] at hc
      exact GamePhase.noConfusion hc
    show (if 300 < s.score + d ∧ s.phase = GamePhase.CORRIDOR
          then GamePhase.HIGH_ALTITUDE else s.phase) = _
    rw [if_neg this]
    exact h

/-- From a CORRIDOR state whose score has not yet exceeded 300, a run of
non-negative score increments ends in HIGH_ALTITUDE exactly when the total
score exceeds 300. -/
lemma applyScores_phase_iff (ds : List ℚ) : ∀ s : GameState,
    (∀ d ∈ ds, 0 ≤ d) → s.phase = GamePhase.CORRIDOR → s.score ≤ 300 →
    ((applyScores s ds).phase = GamePhase.HIGH_ALTITUDE ↔
      300 < s.score + ds.sum) := by
  induction ds with
  | nil =>
    intro s _ hc hle
    show (s.phase = GamePhase.HIGH_ALTITUDE ↔ _)
    rw [hc]
    simp only [List.sum_nil, add_zero]
    exact ⟨fun h => GamePhase.noConfusion h, fun h => absurd h (not_lt.mpr hle)⟩
  | cons d rest ih =>
    intro s hnn hc hle
    have hrest : ∀ x ∈ rest, 0 ≤ x := fun x hx => hnn x (List.mem_cons_of_mem d hx)
    have hsum : 0 ≤ rest.sum := List.sum_nonneg hrest
    show ((applyScores (incrementScore s d) rest).phase = _ ↔ _)
    by_cases h : 300 < s.score + d
    · have hphase : (incrementScore s d).phase = GamePhase.HIGH_ALTITUDE := by
        show (if 300 < s.score + d ∧ s.phase = GamePhase.CORRIDOR
              then GamePhase.HIGH_ALTITUDE else s.phase) = _
        rw [if_pos ⟨h, hc⟩]
      rw [List.sum_cons]
      exact iff_of_true (applyScores_high rest _ hphase) (by linarith)
    · have hphase : (incrementScore s d).phase = GamePhase.CORRIDOR := by
        show (if 300 < s.score + d ∧ s.phase = GamePhase.CORRIDOR
              then GamePhase.HIGH_ALTITUDE else s.phase) = _
        rw [if_neg fun hand => h hand.1]
        exact hc
      have hscore : (incrementScore s d).score = s.score + d := rfl
      rw [List.sum_cons, ← add_assoc, ← hscore]
      exact ih (incrementScore s d) hrest hphase (by rw [hscore]; linarith)

/-- C9: from a fresh game, applying any sequence of non-negative score
deltas yields a score equal to their sum, the score of every prefix is
bounded by the final score (monotone non-decreasing), and the phase is
HIGH_ALTITUDE exactly when the cumulative score exceeds 300 — on the whole
sequence and on every prefix — so the CORRIDOR→HIGH_ALTITUDE transition
happens exactly once, at the first delta pushing the cumulative score past
300, and no later delta returns the phase to CORRIDOR. -/
theorem score_monotone_phase_once (ds : List ℚ) (h : ∀ d ∈ ds, 0 ≤ d) :
    (applyScores (resetGame initialState) ds).score = ds.sum ∧
    (∀ p q, ds = p ++ q →
      (applyScores (resetGame initialState) p).score ≤
        (applyScores (resetGame initialState) ds).score) ∧
    ((applyScores (resetGame initialState) ds).phase = GamePhase.HIGH_ALTITUDE ↔
      300 < ds.sum) ∧
    (∀ p q, ds = p ++ q →
      ((applyScores (resetGame initialState) p).phase = GamePhase.HIGH_ALTITUDE ↔
        300 < p.sum)) ∧
    (∀ p q, ds = p ++ q →
      (applyScores (resetGame initialState) p).phase = GamePhase.HIGH_ALTITUDE →
      (applyScores (resetGame initialState) ds).phase =
        GamePhase.HIGH_ALTITUDE) := by
  have hscore0 : (resetGame initialState).score = 0 := rfl
  have hphase0 : (resetGame initialState).phase = GamePhase.CORRIDOR := rfl
  refine ⟨by rw [applyScores_score, hscore0, zero_add], ?_, ?_, ?_, ?_⟩
  · rintro p q rfl
    have hq : ∀ x ∈ q, 0 ≤ x := fun x hx => h x (List.mem_append_right p hx)
    rw [applyScores_score, applyScores_score, hscore0, zero_add, zero_add,
        List.sum_append]
    have := List.sum_nonneg hq
    linarith
  · rw [applyScores_phase_iff ds _ h hphase0 (by rw [hscore0]; norm_num),
        hscore0, zero_add]
  · rintro p q rfl
    have hp : ∀ x ∈ p, 0 ≤ x := fun x hx => h x (List.mem_append_left q hx)
    rw [applyScores_phase_iff p _ hp hphase0 (by rw [hscore0]; norm_num),
        hscore0, zero_add]
  · rintro p q rfl hhigh
    show (List.foldl incrementScore (resetGame initialState) (p ++ q)).phase = _
    rw [List.foldl_append]
    exact applyScores_high q _ hhigh

/-- C9 witness: two deltas of 200 from a fresh game reach score 400 and the
HIGH_ALTITUDE phase. -/
theorem score_monotone_phase_once_witness :
    (applyScores (resetGame initialState) [200, 200]).score =
      [(200 : ℚ), 200].sum ∧
    ((applyScores (resetGame initialState) [200, 200]).phase =
        GamePhase.HIGH_ALTITUDE ↔ 300 < [(200 : ℚ), 200].sum) :=
  ⟨(score_monotone_phase_once [200, 200] (by norm_num)).1,
   (score_monotone_phase_once [200, 200] (by norm_num)).2.2.1⟩

/-! ### Properties of the collision test -/

/-- The code's two branch tests (`t < 0`, `t > width`) compute the same
point as clamping `t` to `[0, width]`, for a non-negative width. -/
lemma closest_branch_eq_clamp (ox w c t : ℝ) (hw : 0 ≤ w) :
    (if t < 0 then ox else if t > w then ox + w * c else ox + t * c) =
      ox + max 0 (min t w) * c := by
  rcases lt_or_le t 0 with h | h
  · rw [if_pos h, min_eq_left (h.le.trans hw), max_eq_left h.le, zero_mul,
        add_zero]
  · rw [if_neg (not_lt.mpr h)]
    rcases le_or_lt t w with h2 | h2
    · rw [if_neg (not_lt.mpr h2), min_eq_left h2, max_eq_right h]
    · rw [if_pos h2, min_eq_right h2.le, max_eq_right hw]

/-- Rotating a unit vector yields a unit vector. -/
lemma rot_unit (b1 b2 θ : ℝ) (hb : b1 ^ 2 + b2 ^ 2 = 1) :
    (b1 * Real.cos θ - b2 * Real.sin θ) ^ 2 +
      (b1 * Real.sin θ + b2 * Real.cos θ) ^ 2 = 1 := by
  have h := Real.sin_sq_add_cos_sq θ
  nlinarith [h]

/-- C1: for every live obstacle (non-negative length) whose depth is within
the test band around the flock plane, the code's collision check is exactly
the spec's: the direction (base `(-1,0)` if `side = 1` else `(1,0)`, rotated
by `angle`) is a unit vector, and a hit is reported exactly when the squared
distance from the flock position to the closest point of the segment — the
projection parameter clamped to `[0, length]` — is below
`(obstacleVisualRadius + flockCollisionRadius)^2`; in particular the BEAM at
the origin with direction `(1,0)` and length 10 registers a hit for a flock
at `(5,0)` with collision radius 1 and visual radius 0.8, and no hit at
`(20,0)`. -/
theorem collision_exact (l : Laser) (newZ bx bY r : ℝ)
    (hw : 0 ≤ l.width) (hband : |newZ - 0| < 3.0) :
    (laserHit l newZ bx bY r ↔ specHit l bx bY r) ∧
    (∀ d : ℝ × ℝ, IsDir l d → d.1 ^ 2 + d.2 ^ 2 = 1) ∧
    laserHit beamEx 0 5 0 1 ∧
    ¬ laserHit beamEx 0 20 0 1 := by
  refine ⟨?_, ?_, ?_, ?_⟩
  · simp only [laserHit, specHit, IsDir, exists_eq_left]
    rw [and_iff_right hband]
    have hb1 : (if l.side = 1 then ((-1 : ℝ), (0 : ℝ)) else ((1 : ℝ), (0 : ℝ))).1 =
        (if l.side = 1 then (-1 : ℝ) else 1) := by
      rcases eq_or_ne l.side 1 with h | h <;> simp [h]
    have hb2 : (if l.side = 1 then ((-1 : ℝ), (0 : ℝ)) else ((1 : ℝ), (0 : ℝ))).2 =
        (0 : ℝ) := by
      rcases eq_or_ne l.side 1 with h | h <;> simp [h]
    rw [hb1, hb2, closest_branch_eq_clamp _ _ _ _ hw,
        closest_branch_eq_clamp _ _ _ _ hw]
    simp only [pow_two]
  · intro d hd
    simp only [IsDir] at hd
    subst hd
    apply rot_unit
    rcases eq_or_ne l.side 1 with h | h <;> norm_num [h]
  · have hne : LaserType.beam ≠ LaserType.pillar := fun h => LaserType.noConfusion h
    norm_num [laserHit, beamEx, visualRadius, Real.cos_zero, Real.sin_zero, hne]
  · have hne : LaserType.beam ≠ LaserType.pillar := fun h => LaserType.noConfusion h
    norm_num [laserHit, beamEx, visualRadius, Real.cos_zero, Real.sin_zero, hne]

/-- C1 witness: the code/spec collision equivalence instantiated at the
spec's concrete beam, in the depth band, with the flock at `(5, 0)`. -/
theorem collision_exact_witness :
    laserHit beamEx 0 5 0 1 ↔ specHit beamEx 5 0 1 :=
  (collision_exact beamEx 0 5 0 1 (by norm_num [beamEx]) (by norm_num)).1

end BirdGame
